import Mathlib

/-!
Shallow embedding of the `log` Go package (adrianpk/log): a leveled,
structured logger facade over zerolog.  Pure Go values of type
`interface{}` are modelled by `GoVal`; the package-level mutable state
(`cfg` and `Default`) is threaded explicitly as `PkgState`; every
log-emitting method returns the list of records it hands to the writer.
-/

namespace GoLog

/-- A Go `interface{}` value as used by the package: `nil`, `int`, `bool`,
`string`, or a slice of values (the only other dynamic type the package
itself ever boxes, via `AddDyna` and `InCtx`). -/
inductive GoVal where
  | vnil : GoVal
  | vint (n : Int) : GoVal
  | vbool (b : Bool) : GoVal
  | vstr (s : String) : GoVal
  | vslice (xs : List GoVal) : GoVal

/-- The Go test `v != nil` on an `interface{}` value. -/
def GoVal.isNil : GoVal → Bool
  | GoVal.vnil => true
  | _ => false

mutual

/-- Go `stringify` from src/log.go: `nil` prints as `<nil>` (Go `%v`), ints in
decimal, bools as `true`/`false`, strings pass through, anything else uses
its `%+v` debug form (for a slice: elements space-separated in brackets). -/
def stringify : GoVal → String
  | GoVal.vnil => "<nil>"
  | GoVal.vint n => toString n
  | GoVal.vbool b => if b then "true" else "false"
  | GoVal.vstr s => s
  | GoVal.vslice xs => "[" ++ String.intercalate " " (stringifyList xs) ++ "]"

/-- Pointwise `stringify` over a slice's elements. -/
def stringifyList : List GoVal → List String
  | [] => []
  | x :: xs => stringify x :: stringifyList xs

end

/-- A Go `map[string]interface{}` modelled extensionally as an association
list with at most one entry per key; `insertKV` is map assignment
(`fs[k] = v`): replace in place if present, append otherwise. -/
def insertKV : List (String × GoVal) → String → GoVal → List (String × GoVal)
  | [], k, v => [(k, v)]
  | (k', v') :: rest, k, v =>
      if k' = k then (k, v) :: rest else (k', v') :: insertKV rest k v

/-- Map lookup. -/
def lookupKV : List (String × GoVal) → String → Option GoVal
  | [], _ => none
  | (k', v') :: rest, k => if k' = k then some v' else lookupKV rest k

/-- The pair-walking loop of `appendKeyValues` (src/log.go):
`for i := 0; i < len-1; i++ { if a[i] != nil && a[i+1] != nil { fs[stringify(a[i])] = a[i+1]; i++ } }`.
When the pair at the cursor has a nil key or nil value the cursor advances
by ONE element, not two, so later pairing can shift. -/
def walkPairs : List GoVal → List (String × GoVal) → List (String × GoVal)
  | k :: v :: rest, fs =>
      if !k.isNil && !v.isNil then
        walkPairs rest (insertKV fs (stringify k) v)
      else
        walkPairs (v :: rest) fs
  | _, fs => fs

/-- The field-map construction of `appendKeyValues` (src/log.go, lines
199–236), excluding the separate `name` entry: message fields are walked
first, then — only inside the `if len(fields) > 1` block — dynamic fields
and then static fields, each overwriting colliding keys. -/
def composeFS (fields dynafields stfields : List GoVal) : List (String × GoVal) :=
  if fields.length > 1 then
    let fs := walkPairs fields []
    let fs := if dynafields.length > 1 then walkPairs dynafields fs else fs
    let fs := if stfields.length > 1 then walkPairs stfields fs else fs
    fs
  else []

/-! Severity constants from src/const.go.  The Go block is
`const ( Disabled = -1; Debug = iota; Info; Warn; Error )`: `Disabled` is
the spec at iota 0 with explicit value -1, `Debug = iota` sits at iota 1,
so the block yields Debug = 1, Info = 2, Warn = 3, Error = 4. -/

/-- Go `Disabled` level constant. -/
def Disabled : Int := -1

/-- Go `Debug` level constant (`= iota` at position 1 of the const block). -/
def Debug : Int := 1

/-- Go `Info` level constant. -/
def Info : Int := 2

/-- Go `Warn` level constant. -/
def Warn : Int := 3

/-- Go `Error` level constant. -/
def Error : Int := 4

/-! zerolog collaborator, modelled only as far as the package exercises it:
a logger carries a level threshold (Trace = -1, Debug = 0, Info = 1,
Warn = 2, Error = 3, Disabled = 7); `zerolog.New(w)` starts at Trace; an
event of severity `s` is created (and later written by `Msg`) iff
`s >= level` and the logger is not at Disabled. -/

/-- Which writer a zerolog logger was built over. -/
inductive Sink where
  | std : Sink
  | err : Sink

/-- zerolog `InfoLevel`. -/
def zInfo : Int := 1

/-- zerolog `ErrorLevel`. -/
def zError : Int := 3

/-- zerolog `TraceLevel`, the level of a logger fresh from `zerolog.New`. -/
def zTrace : Int := -1

/-- zerolog `Disabled` level. -/
def zDisabled : Int := 7

/-- A `zerolog.Logger` value: its output sink and its level threshold. -/
structure ZLogger where
  sink : Sink
  zlevel : Int

/-- zerolog's `Logger.Level`: it RETURNS a child logger with the new
threshold and leaves the receiver unchanged. -/
def ZLogger.withLevel (zl : ZLogger) (level : Int) : ZLogger :=
  { zl with zlevel := level }

/-- zerolog's event gate: an event of severity `s` on `zl` is enabled iff
`s >= zl.zlevel` and `zl` is not disabled (global level is at its default
Trace and is never touched by this package). -/
def ZLogger.enabled (zl : ZLogger) (s : Int) : Bool :=
  zl.zlevel ≤ s && zl.zlevel ≠ zDisabled

/-- Go `toZerologLevel`-style mapping used by `setLogLevel` (src/log.go):
the package level switched to the zerolog level, default `DebugLevel`. -/
def zerologLevelOf (level : Int) : Int :=
  if level = -1 then zDisabled
  else if level = 0 then 0
  else if level = 1 then zInfo
  else if level = 2 then 2
  else if level = 3 then zError
  else 0

/-- Go `setLogLevel` (src/log.go): it computes `l.Level(...)` on the pointee —
but zerolog's `Level` returns a new logger and the Go source discards that
return value, so the pointed-to logger is left exactly as it was. -/
def setLogLevel (l : ZLogger) (level : Int) : ZLogger :=
  let _ := l.withLevel (zerologLevelOf level)
  l

/-- Go `config` from src/unnamed/part_000: the package-wide singleton. -/
structure Config where
  name : String
  level : Int
  stfields : List GoVal
  configured : Bool

/-- Go `Logger` from src/unnamed/part_000.  `Version`/`Revision` are never
read or written by the package and are omitted. -/
structure Logger where
  Level : Int
  StdLog : ZLogger
  ErrLog : ZLogger
  dynafields : List GoVal

/-- The package-level mutable state: the `cfg` singleton and the `Default`
logger variable. -/
structure PkgState where
  cfg : Config
  default : Logger

/-- A record handed to the external writer: which sink it went to, the
severity the event was created at, the optional `name` entry, the composed
field map, the reserved error field (`Event.Err`), and the message. -/
structure Event where
  sink : Sink
  elevel : Int
  nameField : Option String
  fields : List (String × GoVal)
  errField : Option String
  msg : String

/-- Go `setup` from src/unnamed/part_000: no-op once configured, otherwise
stores the name, appends the static fields and finalizes. -/
def setup (cfg : Config) (name : String) (stfields : List GoVal) : Config :=
  if cfg.configured then cfg
  else { cfg with
         name := name
         stfields := cfg.stfields ++ stfields
         configured := true }

/-- Go `SetDyna` from src/unnamed/part_000: `make([]interface{}, 2)` yields a
slice of two nil interfaces, and the new pairs are appended AFTER them. -/
def Logger.SetDyna (l : Logger) (dynafields : List GoVal) : Logger :=
  { l with dynafields := [GoVal.vnil, GoVal.vnil] ++ dynafields }

/-- Go `AddDyna` from src/unnamed/part_000: appends ONE element, the
two-element slice `[]interface{}{key, value}`, to `dynafields`. -/
def Logger.AddDyna (l : Logger) (key value : GoVal) : Logger :=
  { l with dynafields := l.dynafields ++ [GoVal.vslice [key, value]] }

/-- Go `ResetDyna` from src/unnamed/part_000: `make([]interface{}, 2)`, i.e.
two nil interfaces. -/
def Logger.ResetDyna (l : Logger) : Logger :=
  { l with dynafields := [GoVal.vnil, GoVal.vnil] }

/-- Go `NewLogger` (src/log.go): coerce an out-of-range level to `Info`, build
both sinks from `zerolog.New` (level Trace), pass them through the
result-discarding `setLogLevel`, and — only when more than one static field
argument was given and the global config is untouched — run `setup` and
replace `Default`. -/
def NewLogger (st : PkgState) (level : Int) (name : String)
    (stfields : List GoVal) : Logger × PkgState :=
  let level := if level < Disabled ∨ level > Error then Info else level
  let stdl := setLogLevel { sink := Sink.std, zlevel := zTrace } level
  let errl := setLogLevel { sink := Sink.err, zlevel := zTrace } level
  let l : Logger := { Level := level, StdLog := stdl, ErrLog := errl, dynafields := [] }
  if stfields.length > 1 ∧ ¬ st.cfg.configured then
    (l, { cfg := setup st.cfg name stfields, default := l })
  else
    (l, st)

/-- Go `NewDevLogger` (src/log.go): same contract as `NewLogger`, with the
sinks wrapped in a console writer (`log.Output(ConsoleWriter{...})` also
starts at level Trace, and `setLogLevel` again discards its result). -/
def NewDevLogger (st : PkgState) (level : Int) (name : String)
    (stfields : List GoVal) : Logger × PkgState :=
  let level := if level < Disabled ∨ level > Error then Info else level
  let stdl := setLogLevel { sink := Sink.std, zlevel := zTrace } level
  let errl := setLogLevel { sink := Sink.err, zlevel := zTrace } level
  let l : Logger := { Level := level, StdLog := stdl, ErrLog := errl, dynafields := [] }
  if stfields.length > 1 ∧ ¬ st.cfg.configured then
    (l, { cfg := setup st.cfg name stfields, default := l })
  else
    (l, st)

/-- The record assembled by `appendKeyValues` followed by `Msg` on an
enabled event of severity `s` on sink logger `zl`: `appendKeyValues` adds
the `name` entry when `cfg.name` is non-empty and the composed field map;
if the event is not enabled, `Msg` writes nothing. -/
def emit (cfg : Config) (zl : ZLogger) (s : Int) (dynafields fields : List GoVal)
    (errField : Option String) (msg : String) : List Event :=
  if zl.enabled s then
    [{ sink := zl.sink
       elevel := s
       nameField := if cfg.name ≠ "" then some cfg.name else none
       fields := composeFS fields dynafields cfg.stfields
       errField := errField
       msg := msg }]
  else []

/-- Go `debugf` (src/log.go): gate `l.Level > Debug`, then an event from
`l.StdLog.Info()` — note: `Info()`, severity `zInfo`. -/
def Logger.debugf (cfg : Config) (l : Logger) (message : String)
    (fields : List GoVal) : List Event :=
  if l.Level > Debug then []
  else emit cfg l.StdLog zInfo l.dynafields fields none message

/-- Go `infof` (src/log.go): gate `l.Level > Info`, event from `l.StdLog.Info()`. -/
def Logger.infof (cfg : Config) (l : Logger) (message : String)
    (fields : List GoVal) : List Event :=
  if l.Level > Info then []
  else emit cfg l.StdLog zInfo l.dynafields fields none message

/-- Go `warnf` (src/log.go): gate `l.Level > Warn`, then an event from
`l.StdLog.Info()` — again severity `zInfo`, not warn. -/
def Logger.warnf (cfg : Config) (l : Logger) (message : String)
    (fields : List GoVal) : List Event :=
  if l.Level > Warn then []
  else emit cfg l.StdLog zInfo l.dynafields fields none message

/-- Go `errorf` (src/log.go): no level gate of its own; event from
`l.ErrLog.Error()`, with `le.Err(err)` attaching the error. -/
def Logger.errorf (cfg : Config) (l : Logger) (err : Option String)
    (message : String) (fields : List GoVal) : List Event :=
  emit cfg l.ErrLog zError l.dynafields fields err message

/-- Public `Debug` (src/log.go): no-op without arguments, else first
argument stringified as the message, the rest as fields. -/
def Logger.Debug (cfg : Config) (l : Logger) (meta : List GoVal) : List Event :=
  match meta with
  | [] => []
  | m :: rest => l.debugf cfg (stringify m) rest

/-- Public `Info` (src/log.go). -/
def Logger.Info (cfg : Config) (l : Logger) (meta : List GoVal) : List Event :=
  match meta with
  | [] => []
  | m :: rest => l.infof cfg (stringify m) rest

/-- Public `Warn` (src/log.go). -/
def Logger.Warn (cfg : Config) (l : Logger) (meta : List GoVal) : List Event :=
  match meta with
  | [] => []
  | m :: rest => l.warnf cfg (stringify m) rest

/-- Public `Error` (src/log.go): with arguments, the first is the message;
without, `errorf(err, "", nil)`. -/
def Logger.Error (cfg : Config) (l : Logger) (err : Option String)
    (meta : List GoVal) : List Event :=
  match meta with
  | [] => l.errorf cfg err "" []
  | m :: rest => l.errorf cfg err (stringify m) rest

/-- Go `UpdateLogLevel` (src/log.go).  The Go method has a VALUE receiver: the
mutations below land on a copy that the method then drops, so the function
returns that final copy alongside the audit events; the caller's own
instance is never changed.  Inside: `current := Error` (the constant, not
the saved previous level), an `Info` audit call, `l.Level = current`, and
the range test `level < Disabled || level > Error` guarding the branch that
APPLIES the update. -/
def Logger.UpdateLogLevel (cfg : Config) (l : Logger) (level : Int) :
    Logger × List Event :=
  let current := GoLog.Error
  let evs := l.Info cfg [GoVal.vstr "Log level updated", GoVal.vstr "",
                         GoVal.vstr "log level", GoVal.vint level]
  let l := { l with Level := current }
  if level < Disabled ∨ level > GoLog.Error then
    let l := { l with Level := level
                      StdLog := setLogLevel l.StdLog level
                      ErrLog := setLogLevel l.ErrLog level }
    (l, evs)
  else
    (l, evs)

/-! Context binder.  The only key this package ever uses is the unexported
`loggerCtxKey`, so a context is modelled as the stack of values stored
under that key, most recent first.  What matters for the lookup functions
is the DYNAMIC TYPE of the stored `interface{}` value: `InCtx` stores a
`*Logger`, `CtxLogger` type-asserts `*Logger`, but `FromCtx` type-asserts
the value type `Logger`. -/

/-- A value stored in a context under `loggerCtxKey`, tagged with the
dynamic type it was boxed at: pointer `*Logger` or value `Logger`. -/
inductive CtxVal where
  | loggerPtr (l : Logger) : CtxVal
  | loggerVal (l : Logger) : CtxVal

/-- A `context.Context`, restricted to the `loggerCtxKey` entries. -/
abbrev Ctx := List CtxVal

/-- Go `ctx.Value(loggerCtxKey)`: the most recently stored value, if any. -/
def ctxValue (ctx : Ctx) : Option CtxVal := ctx.head?

/-- Go `context.WithValue(ctx, loggerCtxKey, v)`. -/
def withValue (ctx : Ctx) (v : CtxVal) : Ctx := v :: ctx

/-- Go `CtxLogger` (src/log.go): type-asserts `*Logger`, returning `ok`. -/
def CtxLogger (ctx : Ctx) : Option Logger × Bool :=
  match ctxValue ctx with
  | some (CtxVal.loggerPtr l) => (some l, true)
  | _ => (none, false)

/-- Go `FromCtx` (src/log.go): type-asserts the VALUE type `Logger`
(`ctx.Value(loggerCtxKey).(Logger)`); on a miss it returns a fresh
`NewLogger(cfg.level, cfg.name)` and `fresh = true`. -/
def FromCtx (st : PkgState) (ctx : Ctx) : (Logger × Bool) × PkgState :=
  match ctxValue ctx with
  | some (CtxVal.loggerVal l) => ((l, false), st)
  | _ =>
      let (l, st') := NewLogger st st.cfg.level st.cfg.name []
      ((l, true), st')

/-- Go `InCtx` (src/log.go): looks the logger up with `FromCtx`, calls
`l.SetDyna(fields)` when fields were given — `fields` is a `[]string`
passed as ONE variadic `interface{}` argument, hence the single
`vslice` element — and stores the logger back as a `*Logger`. -/
def InCtx (st : PkgState) (ctx : Ctx) (fields : List String) : Ctx × PkgState :=
  let ((l, _), st') := FromCtx st ctx
  let l := if fields.length > 0 then
             l.SetDyna [GoVal.vslice (fields.map GoVal.vstr)]
           else l
  (withValue ctx (CtxVal.loggerPtr l), st')

/-- The zero value of `config` before any call. -/
def zeroConfig : Config :=
  { name := "", level := 0, stfields := [], configured := false }

/-- The package state produced by `init()` (src/log.go):
`Default = NewLogger(Debug, "logger")` over the zero-valued `cfg`. -/
def initState : PkgState :=
  let st0 : PkgState :=
    { cfg := zeroConfig
      default := { Level := 0, StdLog := { sink := Sink.std, zlevel := zTrace },
                   ErrLog := { sink := Sink.err, zlevel := zTrace }, dynafields := [] } }
  let (l, st1) := NewLogger st0 Debug "logger" []
  { st1 with default := l }

/-- Reference walk following the spec's words (§4.3): the field list is
walked two entries at a time as (key, value); a pair with a null key or a
null value is dropped, and the walk advances to the NEXT PAIR, never
re-pairing later elements. -/
def specPairsMap : List GoVal → List (String × GoVal) → List (String × GoVal)
  | k :: v :: rest, fs =>
      if !k.isNil && !v.isNil then specPairsMap rest (insertKV fs (stringify k) v)
      else specPairsMap rest fs
  | _, fs => fs

/-! Concrete fixtures used by the theorems below. -/

/-- A finalized global config whose static fields are `("k", "v2")`. -/
def cfgStatic : Config :=
  { name := "", level := 0, stfields := [GoVal.vstr "k", GoVal.vstr "v2"],
    configured := true }

/-- An untouched global config. -/
def cfgEmpty : Config :=
  { name := "", level := 0, stfields := [], configured := false }

/-- A logger at level `Info` with freshly constructed sinks. -/
def lInfo : Logger :=
  { Level := Info, StdLog := { sink := Sink.std, zlevel := zTrace },
    ErrLog := { sink := Sink.err, zlevel := zTrace }, dynafields := [] }

/-- A logger at level `Debug` with freshly constructed sinks. -/
def lDbg : Logger :=
  { Level := Debug, StdLog := { sink := Sink.std, zlevel := zTrace },
    ErrLog := { sink := Sink.err, zlevel := zTrace }, dynafields := [] }

/-- A logger at level `Disabled` with freshly constructed sinks. -/
def lDis : Logger :=
  { Level := Disabled, StdLog := { sink := Sink.std, zlevel := zTrace },
    ErrLog := { sink := Sink.err, zlevel := zTrace }, dynafields := [] }

/-- The logger that `InCtx initState [] ["a", "b"]` actually stores (as a
pointer): level 0 and dynamic fields `[nil, nil, ["a", "b"]]` — the two nil
slots from `make([]interface{}, 2)` followed by the single boxed slice. -/
def boundLogger : Logger :=
  { Level := 0, StdLog := { sink := Sink.std, zlevel := zTrace },
    ErrLog := { sink := Sink.err, zlevel := zTrace },
    dynafields := [GoVal.vnil, GoVal.vnil,
                   GoVal.vslice [GoVal.vstr "a", GoVal.vstr "b"]] }

/-- A sink still at its constructed Trace threshold never filters an
info-severity event. -/
theorem enabled_trace_info (k : Sink) :
    ZLogger.enabled { sink := k, zlevel := zTrace } zInfo = true := rfl

/-- A sink still at its constructed Trace threshold never filters an
error-severity event. -/
theorem enabled_trace_err (k : Sink) :
    ZLogger.enabled { sink := k, zlevel := zTrace } zError = true := rfl

/-- Claim C1.  Binding with `InCtx(ctx, "a", "b")` and looking up with
`FromCtx` on the returned context does NOT return the bound logger: `InCtx`
stores a `*Logger` while `FromCtx` type-asserts the value type `Logger`, so
the lookup always misses — it returns a fresh default logger with
`fresh = true` (i.e. found = false) and empty dynamic fields, even though a
pointer-typed logger (with mangled dynamic fields, see `boundLogger`) is
sitting in the context. -/
theorem inctx_fromctx_roundtrip_misses :
    (FromCtx (InCtx initState [] ["a", "b"]).2 (InCtx initState [] ["a", "b"]).1).1.2
      = true
    ∧ (FromCtx (InCtx initState [] ["a", "b"]).2
        (InCtx initState [] ["a", "b"]).1).1.1.dynafields = []
    ∧ ctxValue (InCtx initState [] ["a", "b"]).1
        = some (CtxVal.loggerPtr boundLogger)
    ∧ (CtxLogger (InCtx initState [] ["a", "b"]).1).2 = true := by
  refine ⟨rfl, rfl, rfl, rfl⟩

/-- Claim C2.  The Go const block gives `Disabled = -1` but `Debug = iota`
at position 1, so the severity constants come out as 1, 2, 3, 4 instead of
the documented 0, 1, 2, 3; consequently `setLogLevel`'s switch (whose cases
are -1, 0, 1, 2, 3) sends the `Error` constant to its default branch. -/
theorem level_constant_values :
    Disabled = -1 ∧ Debug = 1 ∧ Info = 2 ∧ Warn = 3 ∧ GoLog.Error = 4
    ∧ Disabled < Debug ∧ Debug < Info ∧ Info < Warn ∧ Warn < GoLog.Error
    ∧ zerologLevelOf GoLog.Error = 0 := by
  refine ⟨rfl, rfl, rfl, rfl, rfl, by decide, by decide, by decide, by decide, rfl⟩

/-- Claim C3.  In `appendKeyValues` the dynamic-field and static-field
walks sit INSIDE the `if len(fields) > 1` block, so a log call that
supplies no message fields emits a record with an empty composed map even
when global static fields are configured — while the same static pair does
appear as soon as a message pair is supplied. -/
theorem static_fields_lost_without_message_fields :
    (Logger.infof cfgStatic lInfo "hello" []).map (fun e => e.fields) = [[]]
    ∧ lookupKV (composeFS [] [] cfgStatic.stfields) "k" = none
    ∧ lookupKV (composeFS [GoVal.vstr "x", GoVal.vstr "y"] [] cfgStatic.stfields) "k"
        = some (GoVal.vstr "v2") := by
  refine ⟨rfl, rfl, rfl⟩

/-- Claim C4.  `UpdateLogLevel` is inverted and lossy: for an in-range new
level (here 2) the receiver copy ends at the `Error` constant, not at the
requested level; for an out-of-range level (here 9) the update IS applied;
and since the Go method has a value receiver, even these writes land on a
copy that is dropped on return, so no holder of the instance ever sees a
change.  The audit record is emitted (one Info-severity event on the
normal sink) under the previous threshold. -/
theorem update_log_level_inverted :
    (Logger.UpdateLogLevel cfgStatic lInfo 2).1.Level = GoLog.Error
    ∧ (Logger.UpdateLogLevel cfgStatic lInfo 2).1.Level ≠ 2
    ∧ (Logger.UpdateLogLevel cfgStatic lInfo 9).1.Level = 9
    ∧ (Logger.UpdateLogLevel cfgStatic lInfo 9).1.StdLog = lInfo.StdLog
    ∧ (Logger.UpdateLogLevel cfgStatic lInfo 2).2.length = 1
    ∧ (Logger.UpdateLogLevel cfgStatic lInfo 2).2.map (fun e => e.elevel) = [zInfo] := by
  refine ⟨rfl, by decide, rfl, rfl, rfl, rfl⟩

/-- Claim C5.  `Error(err, ...)` always produces exactly one writer
invocation on the error sink, with the error attached under the reserved
field, and an empty message when no message argument is given; the freshly
constructed error sink of `NewLogger`/`NewDevLogger` (level Trace, since
`setLogLevel` discards the re-levelled logger) never filters it, whatever
the configured level — including `Disabled`. -/
theorem error_always_one_write (cfg : Config) (st : PkgState) (level : Int)
    (name : String) (sf : List GoVal) (l : Logger) (err : Option String)
    (meta : List GoVal)
    (hE : l.ErrLog = { sink := Sink.err, zlevel := zTrace }) :
    ((NewLogger st level name sf).1.ErrLog = { sink := Sink.err, zlevel := zTrace }
     ∧ (NewDevLogger st level name sf).1.ErrLog = { sink := Sink.err, zlevel := zTrace })
    ∧ (Logger.Error cfg l err meta).length = 1
    ∧ ∀ e ∈ Logger.Error cfg l err meta,
        e.sink = Sink.err ∧ e.elevel = zError ∧ e.errField = err
        ∧ (meta = [] → e.msg = "") := by
  constructor
  · constructor
    · simp only [NewLogger]
      split <;> rfl
    · simp only [NewDevLogger]
      split <;> rfl
  · cases meta with
    | nil =>
        simp [Logger.Error, Logger.errorf, emit, hE, ZLogger.enabled, zTrace,
              zDisabled, zError]
    | cons m rest =>
        simp [Logger.Error, Logger.errorf, emit, hE, ZLogger.enabled, zTrace,
              zDisabled, zError]

/-- Witness for claim C5 at a `Disabled`-level logger with the error nil
and no message arguments. -/
theorem error_always_one_write_witness :
    lDis.ErrLog = { sink := Sink.err, zlevel := zTrace }
    ∧ ((Logger.Error cfgStatic lDis none []).length = 1
       ∧ ∀ e ∈ Logger.Error cfgStatic lDis none [],
           e.sink = Sink.err ∧ e.elevel = zError ∧ e.errField = none
           ∧ (([] : List GoVal) = [] → e.msg = "")) :=
  ⟨rfl, (error_always_one_write cfgStatic initState 1 "svc" [] lDis none [] rfl).2⟩

/-- Claim C6.  The first construction call supplying two or more static
field arguments while the config is untouched stores the name, appends the
static fields and finalizes the config; once configured, construction calls
leave the whole package state unchanged; and a call with fewer than two
extra arguments never touches the package state at all.  Both `NewLogger`
and `NewDevLogger` behave identically. -/
theorem construction_configures_once (st : PkgState) (level : Int)
    (name : String) (sf : List GoVal) :
    (sf.length > 1 → ¬ st.cfg.configured →
       (NewLogger st level name sf).2.cfg
         = { st.cfg with
             name := name
             stfields := st.cfg.stfields ++ sf
             configured := true }
       ∧ (NewDevLogger st level name sf).2.cfg
         = { st.cfg with
             name := name
             stfields := st.cfg.stfields ++ sf
             configured := true })
    ∧ (st.cfg.configured → (NewLogger st level name sf).2 = st
        ∧ (NewDevLogger st level name sf).2 = st)
    ∧ (sf.length ≤ 1 → (NewLogger st level name sf).2 = st
        ∧ (NewDevLogger st level name sf).2 = st) := by
  refine ⟨fun h1 h2 => ?_, fun hc => ?_, fun hs => ?_⟩
  · constructor <;>
      simp [NewLogger, NewDevLogger, setup, h1, h2]
  · constructor <;>
      simp [NewLogger, NewDevLogger, hc]
  · have h' : ¬ sf.length > 1 := by omega
    constructor <;>
      simp [NewLogger, NewDevLogger, h']

/-- Witness for claim C6: from the `init()` state, a call with the two
static arguments `"rev", "123"` finalizes the config with them. -/
theorem construction_configures_once_witness :
    [GoVal.vstr "rev", GoVal.vstr "123"].length > 1
    ∧ ¬ initState.cfg.configured
    ∧ (NewLogger initState 2 "svc" [GoVal.vstr "rev", GoVal.vstr "123"]).2.cfg
        = { initState.cfg with
            name := "svc"
            stfields := initState.cfg.stfields ++ [GoVal.vstr "rev", GoVal.vstr "123"]
            configured := true } :=
  ⟨by decide, by decide,
   ((construction_configures_once initState 2 "svc"
      [GoVal.vstr "rev", GoVal.vstr "123"]).1 (by decide) (by decide)).1⟩

/-- Claim C7.  The composer's message-field walk advances the cursor by
only one element when it meets a nil key or nil value, so a dropped pair
desynchronizes the following pairs: on `[nil, "x", "a", "b"]` the code
produces `{"x": "a"}` where the spec's walk (drop the nil pair, move to the
next pair) produces `{"a": "b"}`. -/
theorem pair_walk_desync :
    composeFS [GoVal.vnil, GoVal.vstr "x", GoVal.vstr "a", GoVal.vstr "b"] [] []
      = [("x", GoVal.vstr "a")]
    ∧ specPairsMap [GoVal.vnil, GoVal.vstr "x", GoVal.vstr "a", GoVal.vstr "b"] []
      = [("a", GoVal.vstr "b")]
    ∧ lookupKV (composeFS [GoVal.vnil, GoVal.vstr "x", GoVal.vstr "a", GoVal.vstr "b"]
        [] []) "a" = none := by
  refine ⟨rfl, rfl, rfl⟩

/-- Claim C8.  `AddDyna(k, v)` appends the single element
`[]interface{}{k, v}` — one nested slice, not the two elements — so after
`AddDyna("a", "b")` on a fresh logger the dynamic field list has length
one, the composer's `len(dynafields) > 1` test fails, and the emitted
record of a subsequent call contains no `"a"` key. -/
theorem add_dyna_appends_nested_slice :
    (Logger.AddDyna lInfo (GoVal.vstr "a") (GoVal.vstr "b")).dynafields
      = [GoVal.vslice [GoVal.vstr "a", GoVal.vstr "b"]]
    ∧ (Logger.infof cfgEmpty (Logger.AddDyna lInfo (GoVal.vstr "a") (GoVal.vstr "b"))
        "m" [GoVal.vstr "x", GoVal.vstr "y"]).map (fun e => lookupKV e.fields "a")
      = [none]
    ∧ (Logger.infof cfgEmpty (Logger.AddDyna lInfo (GoVal.vstr "a") (GoVal.vstr "b"))
        "m" [GoVal.vstr "x", GoVal.vstr "y"]).map (fun e => lookupKV e.fields "x")
      = [some (GoVal.vstr "y")] := by
  refine ⟨rfl, rfl, rfl⟩

/-- Claim C9.  `debugf`, `infof` and `warnf` all construct their event via
`l.StdLog.Info()`: every record they emit is on the normal sink at info
severity, and a call that passes the Go-side level gate (with the sink at
its constructed Trace threshold) emits exactly one such record. -/
theorem severity_methods_emit_info (cfg : Config) (l : Logger) (m : String)
    (f : List GoVal)
    (hs : l.StdLog = { sink := Sink.std, zlevel := zTrace }) :
    (∀ e ∈ l.debugf cfg m f, e.sink = Sink.std ∧ e.elevel = zInfo)
    ∧ (∀ e ∈ l.infof cfg m f, e.sink = Sink.std ∧ e.elevel = zInfo)
    ∧ (∀ e ∈ l.warnf cfg m f, e.sink = Sink.std ∧ e.elevel = zInfo)
    ∧ (l.Level ≤ Debug → (l.debugf cfg m f).length = 1)
    ∧ (l.Level ≤ Warn → (l.warnf cfg m f).length = 1) := by
  refine ⟨?_, ?_, ?_, fun hd => ?_, fun hw => ?_⟩
  · intro e he
    unfold Logger.debugf emit at he
    by_cases hgate : l.Level > Debug
    · simp [hgate] at he
    · simp [hgate, hs, enabled_trace_info] at he
      simp [he]
  · intro e he
    unfold Logger.infof emit at he
    by_cases hgate : l.Level > Info
    · simp [hgate] at he
    · simp [hgate, hs, enabled_trace_info] at he
      simp [he]
  · intro e he
    unfold Logger.warnf emit at he
    by_cases hgate : l.Level > Warn
    · simp [hgate] at he
    · simp [hgate, hs, enabled_trace_info] at he
      simp [he]
  · have hgate : ¬ l.Level > Debug := by omega
    simp [Logger.debugf, emit, hgate, hs, enabled_trace_info]
  · have hgate : ¬ l.Level > Warn := by omega
    simp [Logger.warnf, emit, hgate, hs, enabled_trace_info]

/-- Witness for claim C9 at a `Debug`-level logger: the debug call passes
its gate, emits exactly one record, and every warn record is at info
severity. -/
theorem severity_methods_emit_info_witness :
    lDbg.StdLog = { sink := Sink.std, zlevel := zTrace }
    ∧ lDbg.Level ≤ Debug
    ∧ (lDbg.debugf cfgStatic "m" []).length = 1
    ∧ ∀ e ∈ lDbg.warnf cfgStatic "m" [], e.sink = Sink.std ∧ e.elevel = zInfo :=
  ⟨rfl, by decide,
   (severity_methods_emit_info cfgStatic lDbg "m" [] rfl).2.2.2.1 (by decide),
   (severity_methods_emit_info cfgStatic lDbg "m" [] rfl).2.2.1⟩

/-- Claim C10.  A construction call that supplies two or more static field
arguments while the config is untouched replaces the package `Default`
with the instance it returns; any other construction call leaves `Default`
exactly as it was.  Both `NewLogger` and `NewDevLogger` behave so. -/
theorem default_replaced_on_first_configuration (st : PkgState) (level : Int)
    (name : String) (sf : List GoVal) :
    (sf.length > 1 → ¬ st.cfg.configured →
       (NewLogger st level name sf).2.default = (NewLogger st level name sf).1
       ∧ (NewDevLogger st level name sf).2.default = (NewDevLogger st level name sf).1)
    ∧ (sf.length ≤ 1 ∨ st.cfg.configured →
       (NewLogger st level name sf).2.default = st.default
       ∧ (NewDevLogger st level name sf).2.default = st.default) := by
  refine ⟨fun h1 h2 => ?_, fun h => ?_⟩
  · constructor <;> simp [NewLogger, NewDevLogger, h1, h2]
  · have h' : ¬ (1 < sf.length ∧ st.cfg.configured = false) := by
      rcases h with h | h
      · rintro ⟨h1, _⟩
        omega
      · rintro ⟨_, h2⟩
        simp [h] at h2
    constructor <;> simp [NewLogger, NewDevLogger, h']

/-- Witness for claim C10: from the `init()` state, the qualifying call
installs its own instance as `Default`, and a one-argument call leaves
`Default` untouched. -/
theorem default_replaced_on_first_configuration_witness :
    [GoVal.vstr "rev", GoVal.vstr "123"].length > 1
    ∧ ¬ initState.cfg.configured
    ∧ (NewLogger initState 2 "svc" [GoVal.vstr "rev", GoVal.vstr "123"]).2.default
        = (NewLogger initState 2 "svc" [GoVal.vstr "rev", GoVal.vstr "123"]).1
    ∧ (NewLogger initState 2 "svc" [GoVal.vstr "rev"]).2.default = initState.default :=
  ⟨by decide, by decide,
   ((default_replaced_on_first_configuration initState 2 "svc"
      [GoVal.vstr "rev", GoVal.vstr "123"]).1 (by decide) (by decide)).1,
   ((default_replaced_on_first_configuration initState 2 "svc"
      [GoVal.vstr "rev"]).2 (Or.inl (by decide))).1⟩

end GoLog
